import Mathlib

/-!
Shallow embedding of the AERAS backend ride lifecycle and points ledger
(src/aeras-backend/server.js).  SQL tables become keyed finite maps
(lookup by primary key), SQL statements become pure state updates, and
each HTTP endpoint becomes a function from the store and the request
fields to the updated store together with its response.  The haversine
distance function uses transcendental floating-point operations, so the
endpoints that consume it take the distance function as an explicit
parameter; every policy decision made on its result is embedded exactly.
-/

namespace Aeras

/-- Ride status domain, from the CHECK constraint on the rides table. -/
inductive RideStatus
  | PENDING | ACCEPTED | PICKUP | COMPLETED | TIMEOUT | PENDING_REVIEW | CANCELLED
  deriving DecidableEq, Repr

/-- Rickshaw status domain, from the CHECK constraint on the rickshaws table. -/
inductive RickshawStatus
  | AVAILABLE | ON_RIDE | OFFLINE
  deriving DecidableEq, Repr

/-- Transaction kinds of the points_history table. -/
inductive TxType
  | EARNED | SPENT | ADJUSTED | EXPIRED
  deriving DecidableEq, Repr

/-- A row of the rides table.  Timestamps are abstract ticks (Nat);
coordinates are rationals. -/
structure Ride where
  rideID : Nat
  userID : String
  rickshawID : Option String
  pickupBlock : String
  destination : String
  requestTime : Nat
  acceptTime : Option Nat
  pickupTime : Option Nat
  dropTime : Option Nat
  status : RideStatus
  dropLat : Option ℚ
  dropLng : Option ℚ
  dropDistance : Option ℚ
  pointsAwarded : ℤ
  deriving DecidableEq, Repr

/-- A row of the rickshaws table. -/
structure Rickshaw where
  rickshawID : String
  pullerName : String
  currentLat : ℚ
  currentLng : ℚ
  isOnline : Bool
  totalPoints : ℤ
  status : RickshawStatus
  deriving DecidableEq, Repr

/-- A row of the points_history table. -/
structure PointsTx where
  historyID : Nat
  rickshawID : String
  rideID : Option Nat
  pointsEarned : ℤ
  pointsSpent : ℤ
  transactionType : TxType
  transactionDate : Nat
  deriving DecidableEq, Repr

/-- The persistent store: rides and rickshaws keyed by primary key,
locations as the immutable catalog (blockID to latitude and longitude),
points_history as an append-only list. -/
structure Store where
  rides : Nat → Option Ride
  rickshaws : String → Option Rickshaw
  locations : String → Option (ℚ × ℚ)
  history : List PointsTx
  nextRideID : Nat
  nextHistoryID : Nat

/-- Translation of calculatePoints (server.js lines 131-150); the source
binds basePoints = 10 and penalty = Math.floor(d / 10), inlined here. -/
def calculatePoints (distanceMeters : ℚ) : ℤ :=
  if distanceMeters ≤ 0 then 10
  else if distanceMeters ≤ 50 then max (10 - Int.floor (distanceMeters / 10)) 8
  else if distanceMeters ≤ 100 then 5
  else 0

/-- Point update of the rickshaws table: UPDATE rickshaws ... WHERE
rickshawID = id (primary-key lookup; absent key updates nothing). -/
def updateRickshaw (t : String → Option Rickshaw) (id : String) (f : Rickshaw → Rickshaw) :
    String → Option Rickshaw :=
  fun x => if x = id then (t id).map f else t x

/-- Outcome of POST /api/ride/accept. -/
inductive AcceptResult
  | success | alreadyTaken | raceLost
  deriving DecidableEq, Repr

/-- POST /api/ride/request (lines 157-197): INSERT a PENDING ride.
The 60-second watchdog it arms is modelled by watchdogFire below. -/
def requestRide (s : Store) (userID blockID destination : String) (now : Nat) : Store × Nat :=
  let rid := s.nextRideID
  ({ s with
      rides := fun n =>
        if n = rid then
          some { rideID := rid, userID := userID, rickshawID := none,
                 pickupBlock := blockID, destination := destination,
                 requestTime := now, acceptTime := none, pickupTime := none,
                 dropTime := none, status := RideStatus.PENDING,
                 dropLat := none, dropLng := none, dropDistance := none,
                 pointsAwarded := 0 }
        else s.rides n,
      nextRideID := rid + 1 },
   rid)

/-- The watchdog callback armed by requestRide (lines 181-188): re-read
the ride and set TIMEOUT only if its status is still PENDING. -/
def watchdogFire (s : Store) (rid : Nat) : Store :=
  match s.rides rid with
  | some r =>
      if r.status = RideStatus.PENDING then
        { s with rides := fun n =>
            if n = rid then some { r with status := RideStatus.TIMEOUT } else s.rides n }
      else s
  | none => s

/-- POST /api/ride/accept (lines 305-381), as a single request sees it:
read the ride; if absent or not PENDING answer success=false; otherwise
the conditional update (WHERE rideID = ? AND status = PENDING) assigns
the rickshaw and the rickshaw row is set ON_RIDE.  Sequentially the
write condition re-evaluates the same row, so the zero-rows RaceLost
branch is unreachable here; the statement-level interleaving of two
concurrent handlers on the shared sqlite connection, including their
BEGIN, ROLLBACK and COMMIT statements, is modelled by connStep below. -/
def acceptRide (s : Store) (rid : Nat) (rick : String) (now : Nat) : Store × AcceptResult :=
  match s.rides rid with
  | none => (s, AcceptResult.alreadyTaken)
  | some ride =>
      if ride.status = RideStatus.PENDING then
        ({ s with
            rides := fun n =>
              if n = rid ∧ ride.status = RideStatus.PENDING then
                some { ride with
                        status := RideStatus.ACCEPTED
                        rickshawID := some rick
                        acceptTime := some now }
              else s.rides n,
            rickshaws := updateRickshaw s.rickshaws rick
              (fun k => { k with status := RickshawStatus.ON_RIDE }) },
         AcceptResult.success)
      else (s, AcceptResult.alreadyTaken)

/-- POST /api/ride/pickup (lines 385-413): conditional update
WHERE rideID = ? AND status = ACCEPTED; zero rows is an error. -/
def confirmPickup (s : Store) (rid : Nat) (now : Nat) : Store × Bool :=
  match s.rides rid with
  | none => (s, false)
  | some r =>
      if r.status = RideStatus.ACCEPTED then
        ({ s with rides := fun n =>
            if n = rid then
              some { r with status := RideStatus.PICKUP, pickupTime := some now }
            else s.rides n },
         true)
      else (s, false)

/-- Response body of POST /api/ride/complete. -/
structure CompleteResult where
  points : ℤ
  distance : ℚ
  status : RideStatus
  deriving DecidableEq, Repr

/-- POST /api/ride/complete (lines 416-506).  The SELECT joins the ride
with its destination row; a missing ride or destination is a 404.  The
ride UPDATE carries no status guard (WHERE rideID = ? only).  The credit
branch runs only when points > 0; both branches set the assigned
rickshaw AVAILABLE (a NULL rickshawID matches no rickshaw row and makes
the EARNED INSERT fail its NOT NULL constraint, hence the Option match). -/
def completeRide (dist : ℚ → ℚ → ℚ → ℚ → ℚ) (s : Store) (rid : Nat)
    (dropLat dropLng : ℚ) (now : Nat) : Store × Option CompleteResult :=
  match s.rides rid with
  | none => (s, none)
  | some ride =>
      match s.locations ride.destination with
      | none => (s, none)
      | some dest =>
          let d := dist dropLat dropLng dest.1 dest.2
          let points := calculatePoints d
          let st := if d ≤ 100 then RideStatus.COMPLETED else RideStatus.PENDING_REVIEW
          let s1 : Store :=
            { s with rides := fun n =>
                if n = rid then
                  some { ride with
                          status := st
                          dropTime := some now
                          dropLat := some dropLat
                          dropLng := some dropLng
                          dropDistance := some d
                          pointsAwarded := points }
                else s.rides n }
          let s2 : Store :=
            if 0 < points then
              match ride.rickshawID with
              | some rk =>
                  { s1 with
                      rickshaws := updateRickshaw s1.rickshaws rk
                        (fun k => { k with
                                      totalPoints := k.totalPoints + points
                                      status := RickshawStatus.AVAILABLE }),
                      history := s1.history ++
                        [{ historyID := s1.nextHistoryID, rickshawID := rk,
                           rideID := some rid, pointsEarned := points, pointsSpent := 0,
                           transactionType := TxType.EARNED, transactionDate := now }],
                      nextHistoryID := s1.nextHistoryID + 1 }
              | none => s1
            else
              match ride.rickshawID with
              | some rk =>
                  { s1 with
                      rickshaws := updateRickshaw s1.rickshaws rk
                        (fun k => { k with status := RickshawStatus.AVAILABLE }) }
              | none => s1
          (s2, some { points := points, distance := d, status := st })

/-- POST /api/ride/cancel (lines 653-687): conditional update
WHERE rideID = ? AND rickshawID = ? AND status IN (ACCEPTED, PICKUP);
on success the ride reopens as PENDING with rickshawID and acceptTime
cleared, and the rickshaw is set AVAILABLE. -/
def cancelRide (s : Store) (rid : Nat) (rick : String) : Store × Bool :=
  match s.rides rid with
  | none => (s, false)
  | some r =>
      if r.rickshawID = some rick ∧
          (r.status = RideStatus.ACCEPTED ∨ r.status = RideStatus.PICKUP) then
        ({ s with
            rides := fun n =>
              if n = rid then
                some { r with
                        status := RideStatus.PENDING
                        rickshawID := none
                        acceptTime := none }
              else s.rides n,
            rickshaws := updateRickshaw s.rickshaws rick
              (fun k => { k with status := RickshawStatus.AVAILABLE }) },
         true)
      else (s, false)

/-- Outcome of POST /api/points/redeem. -/
inductive RedeemResult
  | missingFields | notFound | insufficient | ok (newBalance : ℤ)
  deriving DecidableEq, Repr

/-- POST /api/points/redeem (lines 690-735).  A zero points value is
falsy in the source and rejected as missing fields; then the balance
check, the debit and the SPENT insert. -/
def redeemPoints (s : Store) (rick : String) (points : ℤ) (now : Nat) : Store × RedeemResult :=
  if points = 0 then (s, RedeemResult.missingFields)
  else
    match s.rickshaws rick with
    | none => (s, RedeemResult.notFound)
    | some row =>
        if row.totalPoints < points then (s, RedeemResult.insufficient)
        else
          ({ s with
              rickshaws := updateRickshaw s.rickshaws rick
                (fun k => { k with totalPoints := k.totalPoints - points }),
              history := s.history ++
                [{ historyID := s.nextHistoryID, rickshawID := rick, rideID := none,
                   pointsEarned := 0, pointsSpent := points,
                   transactionType := TxType.SPENT, transactionDate := now }],
              nextHistoryID := s.nextHistoryID + 1 },
           RedeemResult.ok (row.totalPoints - points))

/-- POST /api/admin/adjust-points (lines 586-620): recompute the delta
against the recorded award, force the ride COMPLETED, apply the delta to
the rickshaw balance and append an ADJUSTED transaction (a NULL
rickshawID matches no rickshaw row and fails the INSERT, as above). -/
def adjustPoints (s : Store) (rid : Nat) (newPoints : ℤ) (now : Nat) : Store × Option ℤ :=
  match s.rides rid with
  | none => (s, none)
  | some ride =>
      let diff := newPoints - ride.pointsAwarded
      let s1 : Store :=
        { s with rides := fun n =>
            if n = rid then
              some { ride with pointsAwarded := newPoints, status := RideStatus.COMPLETED }
            else s.rides n }
      let s2 : Store :=
        match ride.rickshawID with
        | some rk =>
            { s1 with
                rickshaws := updateRickshaw s1.rickshaws rk
                  (fun k => { k with totalPoints := k.totalPoints + diff }),
                history := s1.history ++
                  [{ historyID := s1.nextHistoryID, rickshawID := rk, rideID := some rid,
                     pointsEarned := diff, pointsSpent := 0,
                     transactionType := TxType.ADJUSTED, transactionDate := now }],
                nextHistoryID := s1.nextHistoryID + 1 }
        | none => s1
      (s2, some diff)

/-- The selection predicate of POST /api/admin/expire-points
(lines 746-757), translated as written: EARNED, older than the cutoff,
and no row with the SAME historyID of type EXPIRED exists.  Since
historyID is the primary key and the row itself is EARNED, the NOT
EXISTS clause is a tautology. -/
def expirableRow (hist : List PointsTx) (cutoff : Nat) (h : PointsTx) : Bool :=
  h.transactionType == TxType.EARNED &&
  decide (h.transactionDate < cutoff) &&
  ! hist.any (fun h2 => h2.historyID == h.historyID && h2.transactionType == TxType.EXPIRED)

/-- The GROUP BY rickshawID aggregation of the expirable rows. -/
def expireGroups (s : Store) (cutoff : Nat) : List (String × ℤ) :=
  let rows := s.history.filter (expirableRow s.history cutoff)
  let ids := (rows.map (fun h => h.rickshawID)).dedup
  ids.map (fun id => (id, ((rows.filter (fun h => h.rickshawID == id)).map
    (fun h => h.pointsEarned)).sum))

/-- One iteration of the apply loop (lines 769-784): debit the balance
and append an EXPIRED transaction carrying the negated sum. -/
def expireApply (now : Nat) (s : Store) (g : String × ℤ) : Store :=
  { s with
      rickshaws := updateRickshaw s.rickshaws g.1
        (fun k => { k with totalPoints := k.totalPoints - g.2 }),
      history := s.history ++
        [{ historyID := s.nextHistoryID, rickshawID := g.1, rideID := none,
           pointsEarned := -g.2, pointsSpent := 0,
           transactionType := TxType.EXPIRED, transactionDate := now }],
      nextHistoryID := s.nextHistoryID + 1 }

/-- POST /api/admin/expire-points (lines 738-795): select and group the
expirable EARNED rows, then apply the per-rickshaw debits; the response
carries the total expired amount. -/
def expirePoints (s : Store) (cutoff now : Nat) : Store × ℤ :=
  let gs := expireGroups s cutoff
  (gs.foldl (expireApply now) s, (gs.map (fun g => g.2)).sum)

/-! Concrete sample data used to exercise the operations. -/

/-- Sample rickshaw id. -/
def r1name : String := "R1"

/-- A second driver id, distinct from r1name. -/
def r2name : String := "R2"

/-- Sample destination block id from the seeded catalog. -/
def blockPahartoli : String := "PAHARTOLI"

/-- Sample pickup block id from the seeded catalog. -/
def blockCuet : String := "CUET_CAMPUS"

/-- Sample guest user id. -/
def guestName : String := "GUEST"

/-- A registered rickshaw with a balance of 10 points. -/
def rick1 : Rickshaw :=
  { rickshawID := r1name, pullerName := "Abdul Karim", currentLat := 0, currentLng := 0,
    isOnline := true, totalPoints := 10, status := RickshawStatus.AVAILABLE }

/-- A freshly requested ride, still PENDING and unassigned. -/
def rideP : Ride :=
  { rideID := 1, userID := guestName, rickshawID := none, pickupBlock := blockCuet,
    destination := blockPahartoli, requestTime := 0, acceptTime := none,
    pickupTime := none, dropTime := none, status := RideStatus.PENDING,
    dropLat := none, dropLng := none, dropDistance := none, pointsAwarded := 0 }

/-- A ride in PICKUP, assigned to rick1, with accept and pickup times set. -/
def rideK : Ride :=
  { rideP with
      rickshawID := some r1name
      acceptTime := some 2
      pickupTime := some 3
      status := RideStatus.PICKUP }

/-- Store holding the PENDING ride, rick1 and the destination catalog row. -/
def storeP : Store :=
  { rides := fun n => if n = 1 then some rideP else none,
    rickshaws := fun id => if id = r1name then some rick1 else none,
    locations := fun b => if b = blockPahartoli then some (0, 0) else none,
    history := [], nextRideID := 2, nextHistoryID := 1 }

/-- Store holding the PICKUP ride instead. -/
def storeK : Store :=
  { storeP with rides := fun n => if n = 1 then some rideK else none }

/-- Store with one old EARNED transaction of 10 points for rick1,
whose cached balance is 10. -/
def storeE : Store :=
  { rides := fun _ => none,
    rickshaws := fun id => if id = r1name then some rick1 else none,
    locations := fun _ => none,
    history := [{ historyID := 1, rickshawID := r1name, rideID := some 1,
                  pointsEarned := 10, pointsSpent := 0,
                  transactionType := TxType.EARNED, transactionDate := 0 }],
    nextRideID := 2, nextHistoryID := 2 }

/-- A constant distance function reporting a drop 150 m from target. -/
def dist150 : ℚ → ℚ → ℚ → ℚ → ℚ := fun _ _ _ _ => 150

/-- A constant distance function reporting an exact drop. -/
def dist0 : ℚ → ℚ → ℚ → ℚ → ℚ := fun _ _ _ _ => 0

/-! The points ledger: per-rickshaw sums over the transaction log and
the balance invariant relating them to the cached totalPoints field. -/

/-- The amount a row records: pointsSpent for SPENT rows, pointsEarned
for every other kind (EARNED credits, ADJUSTED deltas, and EXPIRED rows,
which record the negated expired sum in pointsEarned). -/
def recordedAmount (h : PointsTx) : ℤ :=
  match h.transactionType with
  | TxType.SPENT => h.pointsSpent
  | _ => h.pointsEarned

/-- Sum of the recorded amounts of the rows of one rickshaw and one kind. -/
def sumKind (hist : List PointsTx) (id : String) (t : TxType) : ℤ :=
  ((hist.filter (fun h => h.rickshawID == id && h.transactionType == t)).map
    recordedAmount).sum

/-- The balance formula exactly as the claim states it: earned minus
spent plus adjusted MINUS the recorded expired amounts. -/
def claimedFormula (hist : List PointsTx) (id : String) : ℤ :=
  sumKind hist id TxType.EARNED - sumKind hist id TxType.SPENT +
    sumKind hist id TxType.ADJUSTED - sumKind hist id TxType.EXPIRED

/-- The balance formula the code maintains: since EXPIRED rows record
the negated expired sum, their recorded amounts are ADDED. -/
def actualFormula (hist : List PointsTx) (id : String) : ℤ :=
  sumKind hist id TxType.EARNED - sumKind hist id TxType.SPENT +
    sumKind hist id TxType.ADJUSTED + sumKind hist id TxType.EXPIRED

/-- Decidable check that the cached balance matches the formula the
code maintains. -/
def actualOK (s : Store) (id : String) : Bool :=
  (s.rickshaws id).all (fun rk => rk.totalPoints == actualFormula s.history id)

/-- The signed contribution of one row to the balance of its rickshaw. -/
def signedContrib (h : PointsTx) : ℤ :=
  match h.transactionType with
  | TxType.SPENT => -h.pointsSpent
  | _ => h.pointsEarned

/-- Running signed sum of the rows of one rickshaw. -/
def ledgerBalance (hist : List PointsTx) (id : String) : ℤ :=
  ((hist.filter (fun h => h.rickshawID == id)).map signedContrib).sum

/-- The balance invariant at one rickshaw id: if the rickshaw row is
present, its cached totalPoints equals the running signed ledger sum. -/
def balancedAt (rks : String → Option Rickshaw) (hist : List PointsTx) (id : String) : Prop :=
  ∀ rk, rks id = some rk → rk.totalPoints = ledgerBalance hist id

/-- Decidable check of the formula claimed by the spec at one rickshaw id. -/
def claimedOK (s : Store) (id : String) : Bool :=
  (s.rickshaws id).all (fun rk => rk.totalPoints == claimedFormula s.history id)

/-- The closed set of balance-affecting operations named by the balance
invariant: CompleteRide crediting, Redeem, AdjustAward, ExpireOlderThan. -/
inductive LedgerOp
  | complete (rid : Nat) (dropLat dropLng : ℚ) (now : Nat)
  | redeem (rick : String) (points : ℤ) (now : Nat)
  | adjust (rid : Nat) (newPoints : ℤ) (now : Nat)
  | expire (cutoff now : Nat)

/-- Interpretation of one ledger operation on the store. -/
def applyLedgerOp (dist : ℚ → ℚ → ℚ → ℚ → ℚ) (s : Store) : LedgerOp → Store
  | LedgerOp.complete rid la ln now => (completeRide dist s rid la ln now).1
  | LedgerOp.redeem rick p now => (redeemPoints s rick p now).1
  | LedgerOp.adjust rid np now => (adjustPoints s rid np now).1
  | LedgerOp.expire cutoff now => (expirePoints s cutoff now).1

/-- Interpretation of a sequence of ledger operations. -/
def applyLedgerOps (dist : ℚ → ℚ → ℚ → ℚ → ℚ) (s : Store) : List LedgerOp → Store
  | [] => s
  | op :: rest => applyLedgerOps dist (applyLedgerOp dist s op) rest

/-! Fine-grained model of the AcceptRide race (C1), at the granularity
of the SQL statements the handler issues (server.js lines 314-380) on
the SINGLE shared sqlite connection opened at line 13: BEGIN
TRANSACTION, the SELECT check, the conditional ride UPDATE, the
rickshaw UPDATE, then COMMIT — or ROLLBACK on the negative paths.
node-sqlite3 queues the statements of all concurrent requests on that
one connection, so the statements of two overlapping accept handlers
interleave.  Executing BEGIN while another transaction is already open
on the connection fails (nested transaction); the handler passes no
callback to that db.run, so node-sqlite3 emits the failure as an error
event, which no listener handles, and the process dies — discarding the
still-uncommitted transaction (sqlite rolls an uncommitted journal back
on recovery).  Each scheduled step below executes one statement together
with its callback: the callback is where the handler records its HTTP
response and decides the next statement, so success=true is answered at
the ride UPDATE, before COMMIT has executed. -/

/-- Program counter of one accept request over its statement sequence. -/
inductive AccStmt
  | atBegin | atSelect | atUpdate | atUpdRick | atCommit | atRollback | reqDone
  deriving DecidableEq, Repr

/-- The contended ride row as the race sees it: still PENDING, and which
of the two driver ids its rickshawID column holds. -/
structure RideRow where
  pending : Bool
  assigned : Option (Fin 2)
  deriving DecidableEq, Repr

/-- State of the shared connection and the two requests: the committed
(durable) ride row; the open transaction, if any, as its owner plus its
working copy of the row (statements on the connection read and write the
working copy, visible before COMMIT only on this connection); whether
the unhandled nested-BEGIN error has killed the process; and each
request program counter and recorded response (none while unanswered —
a dead process never answers). -/
structure ConnState where
  committed : RideRow
  txOpen : Option (Fin 2 × RideRow)
  crashed : Bool
  pcA : AccStmt
  pcB : AccStmt
  ansA : Option AcceptResult
  ansB : Option AcceptResult
  deriving DecidableEq, Repr

/-- The program counter of request t. -/
def connPc (c : ConnState) (t : Fin 2) : AccStmt :=
  if t = 0 then c.pcA else c.pcB

/-- Replace the program counter of request t. -/
def setConnPc (c : ConnState) (t : Fin 2) (p : AccStmt) : ConnState :=
  if t = 0 then { c with pcA := p } else { c with pcB := p }

/-- Record the response of request t. -/
def setConnAns (c : ConnState) (t : Fin 2) (a : AcceptResult) : ConnState :=
  if t = 0 then { c with ansA := some a } else { c with ansB := some a }

/-- Execute the next statement of request t and its callback.  BEGIN
with a transaction already open kills the process; the SELECT reads the
working row and answers AlreadyTaken (then ROLLBACK) when it is not
PENDING; the conditional UPDATE re-checks PENDING, assigns the caller in
the working row and answers success=true (COMMIT still ahead), or
answers RaceLost (then ROLLBACK) on zero rows; COMMIT makes the working
row durable.  A dead process executes nothing. -/
def connStep (c : ConnState) (t : Fin 2) : ConnState :=
  if c.crashed then c
  else
    match connPc c t with
    | AccStmt.atBegin =>
        match c.txOpen with
        | some _ => { c with crashed := true }
        | none => setConnPc { c with txOpen := some (t, c.committed) } t AccStmt.atSelect
    | AccStmt.atSelect =>
        match c.txOpen with
        | some (_, row) =>
            if row.pending then setConnPc c t AccStmt.atUpdate
            else setConnPc (setConnAns c t AcceptResult.alreadyTaken) t AccStmt.atRollback
        | none => c
    | AccStmt.atUpdate =>
        match c.txOpen with
        | some (w, row) =>
            if row.pending then
              setConnPc
                (setConnAns { c with txOpen := some (w, { pending := false, assigned := some t }) }
                  t AcceptResult.success)
                t AccStmt.atUpdRick
            else setConnPc (setConnAns c t AcceptResult.raceLost) t AccStmt.atRollback
        | none => c
    | AccStmt.atUpdRick => setConnPc c t AccStmt.atCommit
    | AccStmt.atCommit =>
        match c.txOpen with
        | some (_, row) => setConnPc { c with committed := row, txOpen := none } t AccStmt.reqDone
        | none => c
    | AccStmt.atRollback => setConnPc { c with txOpen := none } t AccStmt.reqDone
    | AccStmt.reqDone => c

/-- Run a schedule of interleaved statements. -/
def connRun (c : ConnState) : List (Fin 2) → ConnState
  | [] => c
  | t :: ts => connRun (connStep c t) ts

/-- Initial state: the ride row is committed PENDING and unassigned, no
transaction is open, both requests are about to issue BEGIN. -/
def connInit : ConnState :=
  { committed := { pending := true, assigned := none }, txOpen := none,
    crashed := false, pcA := AccStmt.atBegin, pcB := AccStmt.atBegin,
    ansA := none, ansB := none }

/-- C5: the scoring bands of calculatePoints, with inclusive lower-band
breakpoints at 50 and 100, and the result always within [0, 10]. -/
theorem c5_score_bands (d : ℚ) :
    (d ≤ 0 → calculatePoints d = 10) ∧
    (0 < d → d ≤ 50 → calculatePoints d = max (10 - Int.floor (d / 10)) 8) ∧
    (50 < d → d ≤ 100 → calculatePoints d = 5) ∧
    (100 < d → calculatePoints d = 0) ∧
    (0 ≤ calculatePoints d ∧ calculatePoints d ≤ 10) ∧
    (8 ≤ calculatePoints 50 ∧ calculatePoints 50 ≤ 10) ∧
    calculatePoints 100 = 5 := by
  have hfloor : 0 < d → (0 : ℤ) ≤ Int.floor (d / 10) := by
    intro hd
    exact Int.floor_nonneg.mpr (by positivity)
  refine ⟨?_, ?_, ?_, ?_, ?_, ?_, ?_⟩
  · intro h
    simp [calculatePoints, h]
  · intro h0 h50
    rw [calculatePoints, if_neg (not_le.mpr h0), if_pos h50]
  · intro h50 h100
    have h0 : ¬ d ≤ 0 := not_le.mpr (lt_trans (by norm_num) h50)
    rw [calculatePoints, if_neg h0, if_neg (not_le.mpr h50), if_pos h100]
  · intro h100
    have h0 : ¬ d ≤ 0 := not_le.mpr (lt_trans (by norm_num) h100)
    have h50 : ¬ d ≤ 50 := not_le.mpr (lt_trans (by norm_num) h100)
    rw [calculatePoints, if_neg h0, if_neg h50, if_neg (not_le.mpr h100)]
  · unfold calculatePoints
    split_ifs with h1 h2 h3
    · omega
    · have hf := hfloor (not_le.mp h1)
      constructor
      · have h8 : (0 : ℤ) ≤ 8 := by norm_num
        exact le_trans h8 (le_max_right _ _)
      · exact max_le (by omega) (by norm_num)
    · omega
    · omega
  · have hifs : calculatePoints 50 = max (10 - Int.floor ((50 : ℚ) / 10)) 8 := by
      rw [calculatePoints, if_neg (by norm_num), if_pos (by norm_num)]
    have hfl : Int.floor ((50 : ℚ) / 10) = 5 := by norm_num
    rw [hifs, hfl]
    norm_num
  · rw [calculatePoints, if_neg (by norm_num), if_neg (by norm_num), if_pos (by norm_num)]

/-- Witness for C5 at concrete distances. -/
theorem c5_score_bands_witness :
    ((0 : ℚ) < 37 ∧ (37 : ℚ) ≤ 50) ∧ calculatePoints 37 = max (10 - Int.floor ((37 : ℚ) / 10)) 8 := by
  refine ⟨by norm_num, ?_⟩
  exact (c5_score_bands 37).2.1 (by norm_num) (by norm_num)

/-- C9: AcceptRide called on an absent ride, or on a ride whose status
is not PENDING, returns the normal negative outcome (success=false,
AlreadyTaken) and the store — in particular the ride row and the calling
status of the calling rickshaw — is exactly as before the call. -/
theorem c9_accept_negative (s : Store) (rid : Nat) (rick : String) (now : Nat)
    (h : s.rides rid = none ∨ ∃ r, s.rides rid = some r ∧ r.status ≠ RideStatus.PENDING) :
    acceptRide s rid rick now = (s, AcceptResult.alreadyTaken) := by
  rcases h with h | ⟨r, hr, hst⟩
  · simp [acceptRide, h]
  · simp [acceptRide, hr, hst]

/-- Witness for C9: accepting the PICKUP ride of storeK changes nothing. -/
theorem c9_accept_negative_witness :
    acceptRide storeK 1 r2name 9 = (storeK, AcceptResult.alreadyTaken) :=
  c9_accept_negative storeK 1 r2name 9
    (Or.inr ⟨rideK, rfl, by decide⟩)

/-- C10: CancelRide on a ride in ACCEPTED or PICKUP assigned to the
caller reopens it to PENDING with rickshawID and acceptTime cleared,
leaves every other ride field — in particular pickupTime — unchanged,
and touches no other ride row. -/
theorem c10_cancel_frame (s : Store) (rid : Nat) (rick : String) (r : Ride)
    (hr : s.rides rid = some r) (hrk : r.rickshawID = some rick)
    (hst : r.status = RideStatus.ACCEPTED ∨ r.status = RideStatus.PICKUP) :
    (cancelRide s rid rick).2 = true ∧
    (cancelRide s rid rick).1.rides rid =
      some { r with
              status := RideStatus.PENDING
              rickshawID := none
              acceptTime := none } ∧
    ((cancelRide s rid rick).1.rides rid).map (fun x => x.pickupTime) = some r.pickupTime ∧
    (∀ n, n ≠ rid → (cancelRide s rid rick).1.rides n = s.rides n) := by
  rcases hst with hst | hst <;>
    refine ⟨?_, ?_, ?_, ?_⟩ <;>
      simp [cancelRide, hr, hrk, hst] <;>
        exact fun n hn hn2 => absurd hn2 hn

/-- Witness for C10: cancelling the PICKUP ride of storeK keeps its
pickupTime (some 3) while reopening it. -/
theorem c10_cancel_frame_witness :
    (cancelRide storeK 1 r1name).2 = true ∧
    (cancelRide storeK 1 r1name).1.rides 1 =
      some { rideK with
              status := RideStatus.PENDING
              rickshawID := none
              acceptTime := none } ∧
    ((cancelRide storeK 1 r1name).1.rides 1).map (fun x => x.pickupTime) =
      some rideK.pickupTime ∧
    (∀ n, n ≠ 1 → (cancelRide storeK 1 r1name).1.rides n = storeK.rides n) :=
  c10_cancel_frame storeK 1 r1name rideK rfl rfl (Or.inr rfl)

/-- C4: the watchdog transitions PENDING to TIMEOUT only when the ride
is still PENDING at fire time; on any other status it is a no-op, and in
particular a ride accepted before the watchdog fires stays ACCEPTED even
when the watchdog fires after the acceptance. -/
theorem c4_watchdog :
    (∀ s rid r, s.rides rid = some r → r.status ≠ RideStatus.PENDING →
      watchdogFire s rid = s) ∧
    (∀ s rid r, s.rides rid = some r → r.status = RideStatus.PENDING →
      (watchdogFire s rid).rides rid = some { r with status := RideStatus.TIMEOUT }) ∧
    (∀ s rid rick now r, s.rides rid = some r → r.status = RideStatus.PENDING →
      (acceptRide s rid rick now).2 = AcceptResult.success ∧
      ((acceptRide s rid rick now).1.rides rid).map (fun x => x.status) =
        some RideStatus.ACCEPTED ∧
      watchdogFire (acceptRide s rid rick now).1 rid = (acceptRide s rid rick now).1) ∧
    (∀ s u b dst now rick now2,
      ((watchdogFire (requestRide s u b dst now).1 (requestRide s u b dst now).2).rides
          (requestRide s u b dst now).2).map (fun x => x.status) =
        some RideStatus.TIMEOUT ∧
      ((watchdogFire
          (acceptRide (requestRide s u b dst now).1 (requestRide s u b dst now).2
            rick now2).1
          (requestRide s u b dst now).2).rides (requestRide s u b dst now).2).map
        (fun x => x.status) = some RideStatus.ACCEPTED) := by
  refine ⟨?_, ?_, ?_, ?_⟩
  · intro s rid r hr hst
    simp [watchdogFire, hr, hst]
  · intro s rid r hr hst
    simp [watchdogFire, hr, hst]
  · intro s rid rick now r hr hst
    refine ⟨?_, ?_, ?_⟩
    · simp [acceptRide, hr, hst]
    · simp [acceptRide, hr, hst]
    · simp [acceptRide, hr, hst, watchdogFire]
  · intro s u b dst now rick now2
    constructor
    · simp [requestRide, watchdogFire]
    · simp [requestRide, acceptRide, watchdogFire]

/-- Witness for C4 on storeK (non-PENDING no-op) and storeP (PENDING
fires; accepted-then-fire leaves the acceptance in place). -/
theorem c4_watchdog_witness :
    watchdogFire storeK 1 = storeK ∧
    (watchdogFire storeP 1).rides 1 = some { rideP with status := RideStatus.TIMEOUT } ∧
    watchdogFire (acceptRide storeP 1 r1name 5).1 1 = (acceptRide storeP 1 r1name 5).1 ∧
    ((watchdogFire
        (acceptRide (requestRide storeP guestName blockCuet blockPahartoli 4).1
          (requestRide storeP guestName blockCuet blockPahartoli 4).2 r1name 5).1
        (requestRide storeP guestName blockCuet blockPahartoli 4).2).rides
      (requestRide storeP guestName blockCuet blockPahartoli 4).2).map
      (fun x => x.status) = some RideStatus.ACCEPTED :=
  ⟨c4_watchdog.1 storeK 1 rideK rfl (by decide),
   c4_watchdog.2.1 storeP 1 rideP rfl rfl,
   (c4_watchdog.2.2.1 storeP 1 r1name 5 rideP rfl rfl).2.2,
   (c4_watchdog.2.2.2 storeP guestName blockCuet blockPahartoli 4 r1name 5).2⟩

/-- C2 counterexample: the ride UPDATE of CompleteRide carries no status
guard, so completing the still-PENDING ride of storeP sets it straight
to COMPLETED, skipping ACCEPTED and PICKUP. -/
theorem c2_complete_unguarded :
    (storeP.rides 1).map (fun x => x.status) = some RideStatus.PENDING ∧
    ((completeRide dist0 storeP 1 0 0 7).1.rides 1).map (fun x => x.status) =
      some RideStatus.COMPLETED := by
  constructor
  · rfl
  · rfl

/-- C2 amended: AcceptRide moves the status of a ride to ACCEPTED exactly
when it was PENDING and ConfirmPickup moves it to PICKUP exactly when it
was ACCEPTED (otherwise both leave it unchanged), so the happy path
follows PENDING, ACCEPTED, PICKUP in order; CompleteRide however has no
status guard and sets any existing ride with a catalog destination to
COMPLETED or PENDING_REVIEW regardless of its current status. -/
theorem c2_transition_guards :
    (∀ s rid rick now r, s.rides rid = some r →
      ((acceptRide s rid rick now).1.rides rid).map (fun x => x.status) =
        some (if r.status = RideStatus.PENDING then RideStatus.ACCEPTED else r.status)) ∧
    (∀ s rid now r, s.rides rid = some r →
      ((confirmPickup s rid now).1.rides rid).map (fun x => x.status) =
        some (if r.status = RideStatus.ACCEPTED then RideStatus.PICKUP else r.status)) ∧
    (∀ dist s rid la ln now r dest,
      s.rides rid = some r → s.locations r.destination = some dest →
      ((completeRide dist s rid la ln now).1.rides rid).map (fun x => x.status) =
        some (if dist la ln dest.1 dest.2 ≤ 100 then RideStatus.COMPLETED
              else RideStatus.PENDING_REVIEW)) := by
  refine ⟨?_, ?_, ?_⟩
  · intro s rid rick now r hr
    by_cases hst : r.status = RideStatus.PENDING <;>
      simp [acceptRide, hr, hst]
  · intro s rid now r hr
    by_cases hst : r.status = RideStatus.ACCEPTED <;>
      simp [confirmPickup, hr, hst]
  · intro dist s rid la ln now r dest hr hd
    by_cases hle : dist la ln dest.1 dest.2 ≤ 100 <;>
      by_cases hp : 0 < calculatePoints (dist la ln dest.1 dest.2) <;>
        cases hrk : r.rickshawID <;>
          simp [completeRide, hr, hd, hle, hp, hrk, updateRickshaw]

/-- Witness for C2 amended: the happy path on storeP, taken in order. -/
theorem c2_transition_guards_witness :
    ((acceptRide storeP 1 r1name 5).1.rides 1).map (fun x => x.status) =
      some (if rideP.status = RideStatus.PENDING then RideStatus.ACCEPTED
            else rideP.status) ∧
    ((confirmPickup storeK 1 6).1.rides 1).map (fun x => x.status) =
      some (if rideK.status = RideStatus.ACCEPTED then RideStatus.PICKUP
            else rideK.status) ∧
    ((completeRide dist150 storeK 1 0 0 7).1.rides 1).map (fun x => x.status) =
      some (if dist150 0 0 0 0 ≤ 100 then RideStatus.COMPLETED
            else RideStatus.PENDING_REVIEW) :=
  ⟨c2_transition_guards.1 storeP 1 r1name 5 rideP rfl,
   c2_transition_guards.2.1 storeK 1 6 rideK rfl,
   c2_transition_guards.2.2 dist150 storeK 1 0 0 7 rideK (0, 0) rfl rfl⟩

/-- C6: CompleteRide on an existing ride with a catalog destination and
an assigned, registered rickshaw computes d from the drop coordinate and
the destination coordinate, sets COMPLETED when d is at most 100 and
PENDING_REVIEW otherwise, persists dropTime, the drop coordinates, d and
the points, returns points, distance and status, and in both branches
releases the rickshaw to AVAILABLE (crediting it only when points are
positive). -/
theorem c6_complete_effects (dist : ℚ → ℚ → ℚ → ℚ → ℚ) (s : Store) (rid : Nat)
    (la ln : ℚ) (now : Nat) (r : Ride) (dest : ℚ × ℚ) (rk : String) (k : Rickshaw)
    (hr : s.rides rid = some r) (hd : s.locations r.destination = some dest)
    (hrk : r.rickshawID = some rk) (hk : s.rickshaws rk = some k) :
    (completeRide dist s rid la ln now).2 =
      some { points := calculatePoints (dist la ln dest.1 dest.2)
             distance := dist la ln dest.1 dest.2
             status := if dist la ln dest.1 dest.2 ≤ 100 then RideStatus.COMPLETED
                       else RideStatus.PENDING_REVIEW } ∧
    (completeRide dist s rid la ln now).1.rides rid =
      some { r with
              status := if dist la ln dest.1 dest.2 ≤ 100 then RideStatus.COMPLETED
                        else RideStatus.PENDING_REVIEW
              dropTime := some now
              dropLat := some la
              dropLng := some ln
              dropDistance := some (dist la ln dest.1 dest.2)
              pointsAwarded := calculatePoints (dist la ln dest.1 dest.2) } ∧
    ((completeRide dist s rid la ln now).1.rickshaws rk).map (fun x => x.status) =
      some RickshawStatus.AVAILABLE ∧
    ((completeRide dist s rid la ln now).1.rickshaws rk).map (fun x => x.totalPoints) =
      some (k.totalPoints +
        (if 0 < calculatePoints (dist la ln dest.1 dest.2)
         then calculatePoints (dist la ln dest.1 dest.2) else 0)) := by
  by_cases hp : 0 < calculatePoints (dist la ln dest.1 dest.2) <;>
    refine ⟨?_, ?_, ?_, ?_⟩ <;>
      simp [completeRide, hr, hd, hrk, hk, hp, updateRickshaw]

/-- Witness for C6: a drop 150 m out on storeK earns 0 points, parks the
ride in PENDING_REVIEW and still releases rick1 to AVAILABLE. -/
theorem c6_complete_effects_witness :
    (completeRide dist150 storeK 1 0 0 9).2 =
      some { points := calculatePoints (dist150 0 0 0 0)
             distance := dist150 0 0 0 0
             status := if dist150 0 0 0 0 ≤ 100 then RideStatus.COMPLETED
                       else RideStatus.PENDING_REVIEW } ∧
    (completeRide dist150 storeK 1 0 0 9).1.rides 1 =
      some { rideK with
              status := if dist150 0 0 0 0 ≤ 100 then RideStatus.COMPLETED
                        else RideStatus.PENDING_REVIEW
              dropTime := some 9
              dropLat := some 0
              dropLng := some 0
              dropDistance := some (dist150 0 0 0 0)
              pointsAwarded := calculatePoints (dist150 0 0 0 0) } ∧
    ((completeRide dist150 storeK 1 0 0 9).1.rickshaws r1name).map (fun x => x.status) =
      some RickshawStatus.AVAILABLE ∧
    ((completeRide dist150 storeK 1 0 0 9).1.rickshaws r1name).map (fun x => x.totalPoints) =
      some (rick1.totalPoints +
        (if 0 < calculatePoints (dist150 0 0 0 0)
         then calculatePoints (dist150 0 0 0 0) else 0)) :=
  c6_complete_effects dist150 storeK 1 0 0 9 rideK (0, 0) r1name rick1 rfl rfl rfl rfl

/-- C8: for a registered rickshaw and a nonzero requested amount, Redeem
fails with InsufficientBalance and leaves the whole store unchanged when
the balance is strictly below the amount; otherwise it debits exactly
the amount, appends one SPENT transaction for it, returns the new
balance (old minus amount) and touches no other rickshaw row. -/
theorem c8_redeem_balance (s : Store) (rick : String) (p : ℤ) (row : Rickshaw) (now : Nat)
    (hp : p ≠ 0) (hrow : s.rickshaws rick = some row) :
    (row.totalPoints < p → redeemPoints s rick p now = (s, RedeemResult.insufficient)) ∧
    (p ≤ row.totalPoints →
      (redeemPoints s rick p now).2 = RedeemResult.ok (row.totalPoints - p) ∧
      ((redeemPoints s rick p now).1.rickshaws rick).map (fun x => x.totalPoints) =
        some (row.totalPoints - p) ∧
      (redeemPoints s rick p now).1.history = s.history ++
        [{ historyID := s.nextHistoryID, rickshawID := rick, rideID := none,
           pointsEarned := 0, pointsSpent := p, transactionType := TxType.SPENT,
           transactionDate := now }] ∧
      (∀ x, x ≠ rick → (redeemPoints s rick p now).1.rickshaws x = s.rickshaws x)) := by
  constructor
  · intro hlt
    simp [redeemPoints, hp, hrow, hlt]
  · intro hge
    have hnlt : ¬ row.totalPoints < p := not_lt.mpr hge
    refine ⟨?_, ?_, ?_, ?_⟩
    · simp [redeemPoints, hp, hrow, hnlt]
    · simp [redeemPoints, hp, hrow, hnlt, updateRickshaw]
    · simp [redeemPoints, hp, hrow, hnlt]
    · intro x hx
      simp [redeemPoints, hp, hrow, hnlt, updateRickshaw, hx]

/-- Witness for C8 on storeK: redeeming 25 of a 10-point balance fails
with no state change; redeeming 4 yields the new balance 6. -/
theorem c8_redeem_balance_witness :
    redeemPoints storeK r1name 25 11 = (storeK, RedeemResult.insufficient) ∧
    (redeemPoints storeK r1name 4 11).2 = RedeemResult.ok (rick1.totalPoints - 4) :=
  ⟨(c8_redeem_balance storeK r1name 25 rick1 11 (by decide) rfl).1 (by decide),
   ((c8_redeem_balance storeK r1name 4 rick1 11 (by decide) rfl).2 (by decide)).1⟩

/-! Lemmas for the ledger balance invariant. -/

theorem sumKind_cons (h : PointsTx) (t : List PointsTx) (id : String) (k : TxType) :
    sumKind (h :: t) id k =
      (if h.rickshawID = id ∧ h.transactionType = k then recordedAmount h else 0) +
        sumKind t id k := by
  by_cases h1 : h.rickshawID = id <;> by_cases h2 : h.transactionType = k <;>
    simp [sumKind, List.filter_cons, h1, h2]

theorem ledgerBalance_cons (h : PointsTx) (t : List PointsTx) (id : String) :
    ledgerBalance (h :: t) id =
      (if h.rickshawID = id then signedContrib h else 0) + ledgerBalance t id := by
  by_cases h1 : h.rickshawID = id <;>
    simp [ledgerBalance, List.filter_cons, h1]

theorem ledgerBalance_eq_actual (hist : List PointsTx) (id : String) :
    ledgerBalance hist id = actualFormula hist id := by
  induction hist with
  | nil => simp [ledgerBalance, actualFormula, sumKind]
  | cons h t ih =>
      rw [actualFormula, sumKind_cons, sumKind_cons, sumKind_cons, sumKind_cons,
        ledgerBalance_cons, ih, actualFormula]
      by_cases h1 : h.rickshawID = id <;>
        cases ht : h.transactionType <;>
          simp [h1, ht, signedContrib, recordedAmount] <;> omega

theorem ledgerBalance_append (hist : List PointsTx) (tx : PointsTx) (id : String) :
    ledgerBalance (hist ++ [tx]) id =
      ledgerBalance hist id + (if tx.rickshawID = id then signedContrib tx else 0) := by
  by_cases h : tx.rickshawID = id <;>
    simp [ledgerBalance, List.filter_append, h]

theorem balancedAt_post (rks : String → Option Rickshaw) (hist : List PointsTx)
    (id rkid : String) (f : Rickshaw → Rickshaw) (tx : PointsTx)
    (hid : tx.rickshawID = rkid)
    (hf : ∀ k, (f k).totalPoints = k.totalPoints + signedContrib tx)
    (hb : balancedAt rks hist id) :
    balancedAt (updateRickshaw rks rkid f) (hist ++ [tx]) id := by
  intro rk h
  rw [ledgerBalance_append]
  by_cases hcase : id = rkid
  · subst hcase
    rw [updateRickshaw, if_pos rfl] at h
    cases hex : rks id with
    | none => rw [hex] at h; simp at h
    | some k =>
        rw [hex] at h
        simp at h
        rw [← h, hf k, hb k hex, hid, if_pos rfl]
  · rw [updateRickshaw, if_neg hcase] at h
    have hne : ¬ tx.rickshawID = id := by
      rw [hid]
      exact fun he => hcase he.symm
    rw [hb rk h, if_neg hne, add_zero]

theorem balancedAt_keep (rks : String → Option Rickshaw) (hist : List PointsTx)
    (id rkid : String) (f : Rickshaw → Rickshaw)
    (hf : ∀ k, (f k).totalPoints = k.totalPoints)
    (hb : balancedAt rks hist id) :
    balancedAt (updateRickshaw rks rkid f) hist id := by
  intro rk h
  by_cases hcase : id = rkid
  · subst hcase
    rw [updateRickshaw, if_pos rfl] at h
    cases hex : rks id with
    | none => rw [hex] at h; simp at h
    | some k =>
        rw [hex] at h
        simp at h
        rw [← h, hf k]
        exact hb k hex
  · rw [updateRickshaw, if_neg hcase] at h
    exact hb rk h

theorem complete_preserves (dist : ℚ → ℚ → ℚ → ℚ → ℚ) (s : Store) (rid : Nat)
    (la ln : ℚ) (now : Nat) (id : String)
    (hb : balancedAt s.rickshaws s.history id) :
    balancedAt (completeRide dist s rid la ln now).1.rickshaws
      (completeRide dist s rid la ln now).1.history id := by
  cases hr : s.rides rid with
  | none => simpa [completeRide, hr] using hb
  | some ride =>
      cases hd : s.locations ride.destination with
      | none => simpa [completeRide, hr, hd] using hb
      | some dest =>
          by_cases hp : 0 < calculatePoints (dist la ln dest.1 dest.2)
          · cases hrk : ride.rickshawID with
            | none => simpa [completeRide, hr, hd, hrk, hp] using hb
            | some rk =>
                have h2 := balancedAt_post s.rickshaws s.history id rk
                  (fun k => { k with
                      totalPoints := k.totalPoints +
                        calculatePoints (dist la ln dest.1 dest.2)
                      status := RickshawStatus.AVAILABLE })
                  { historyID := s.nextHistoryID, rickshawID := rk, rideID := some rid,
                    pointsEarned := calculatePoints (dist la ln dest.1 dest.2),
                    pointsSpent := 0, transactionType := TxType.EARNED,
                    transactionDate := now }
                  rfl (fun k => rfl) hb
                simpa [completeRide, hr, hd, hrk, hp] using h2
          · cases hrk : ride.rickshawID with
            | none => simpa [completeRide, hr, hd, hrk, hp] using hb
            | some rk =>
                have h2 := balancedAt_keep s.rickshaws s.history id rk
                  (fun k => { k with status := RickshawStatus.AVAILABLE })
                  (fun k => rfl) hb
                simpa [completeRide, hr, hd, hrk, hp] using h2

theorem redeem_preserves (s : Store) (rick : String) (p : ℤ) (now : Nat) (id : String)
    (hb : balancedAt s.rickshaws s.history id) :
    balancedAt (redeemPoints s rick p now).1.rickshaws
      (redeemPoints s rick p now).1.history id := by
  by_cases hz : p = 0
  · simpa [redeemPoints, hz] using hb
  · cases hx : s.rickshaws rick with
    | none => simpa [redeemPoints, hz, hx] using hb
    | some row =>
        by_cases hlt : row.totalPoints < p
        · simpa [redeemPoints, hz, hx, hlt] using hb
        · have h2 := balancedAt_post s.rickshaws s.history id rick
            (fun k => { k with totalPoints := k.totalPoints - p })
            { historyID := s.nextHistoryID, rickshawID := rick, rideID := none,
              pointsEarned := 0, pointsSpent := p, transactionType := TxType.SPENT,
              transactionDate := now }
            rfl (fun k => rfl) hb
          simpa [redeemPoints, hz, hx, hlt] using h2

theorem adjust_preserves (s : Store) (rid : Nat) (np : ℤ) (now : Nat) (id : String)
    (hb : balancedAt s.rickshaws s.history id) :
    balancedAt (adjustPoints s rid np now).1.rickshaws
      (adjustPoints s rid np now).1.history id := by
  cases hr : s.rides rid with
  | none => simpa [adjustPoints, hr] using hb
  | some ride =>
      cases hrk : ride.rickshawID with
      | none => simpa [adjustPoints, hr, hrk] using hb
      | some rk =>
          have h2 := balancedAt_post s.rickshaws s.history id rk
            (fun k => { k with totalPoints := k.totalPoints + (np - ride.pointsAwarded) })
            { historyID := s.nextHistoryID, rickshawID := rk, rideID := some rid,
              pointsEarned := np - ride.pointsAwarded, pointsSpent := 0,
              transactionType := TxType.ADJUSTED, transactionDate := now }
            rfl (fun k => rfl) hb
          simpa [adjustPoints, hr, hrk] using h2

theorem expireApply_preserves (now : Nat) (g : String × ℤ) (s : Store) (id : String)
    (hb : balancedAt s.rickshaws s.history id) :
    balancedAt (expireApply now s g).rickshaws (expireApply now s g).history id := by
  unfold expireApply
  exact balancedAt_post s.rickshaws s.history id g.1 _ _ rfl
    (fun k => by simp [signedContrib, sub_eq_add_neg]) hb

theorem foldl_expire_preserves (now : Nat) (id : String) (gs : List (String × ℤ)) :
    ∀ s : Store, balancedAt s.rickshaws s.history id →
      balancedAt (gs.foldl (expireApply now) s).rickshaws
        (gs.foldl (expireApply now) s).history id := by
  induction gs with
  | nil => exact fun s hb => hb
  | cons g rest ih =>
      intro s hb
      exact ih (expireApply now s g) (expireApply_preserves now g s id hb)

theorem expire_preserves (s : Store) (cutoff now : Nat) (id : String)
    (hb : balancedAt s.rickshaws s.history id) :
    balancedAt (expirePoints s cutoff now).1.rickshaws
      (expirePoints s cutoff now).1.history id := by
  unfold expirePoints
  exact foldl_expire_preserves now id (expireGroups s cutoff) s hb

theorem ledgerOp_preserves (dist : ℚ → ℚ → ℚ → ℚ → ℚ) (s : Store) (op : LedgerOp)
    (id : String) (hb : balancedAt s.rickshaws s.history id) :
    balancedAt (applyLedgerOp dist s op).rickshaws (applyLedgerOp dist s op).history id := by
  cases op with
  | complete rid la ln now => exact complete_preserves dist s rid la ln now id hb
  | redeem rick p now => exact redeem_preserves s rick p now id hb
  | adjust rid np now => exact adjust_preserves s rid np now id hb
  | expire cutoff now => exact expire_preserves s cutoff now id hb

theorem ledgerOps_preserve (dist : ℚ → ℚ → ℚ → ℚ → ℚ) (ops : List LedgerOp) :
    ∀ s : Store, ∀ id : String, balancedAt s.rickshaws s.history id →
      balancedAt (applyLedgerOps dist s ops).rickshaws
        (applyLedgerOps dist s ops).history id := by
  induction ops with
  | nil => exact fun s id hb => hb
  | cons op rest ih =>
      intro s id hb
      exact ih (applyLedgerOp dist s op) id (ledgerOp_preserves dist s op id hb)

theorem actualOK_iff (s : Store) (id : String) :
    actualOK s id = true ↔ balancedAt s.rickshaws s.history id := by
  unfold actualOK balancedAt
  cases hx : s.rickshaws id with
  | none => simp
  | some k => simp [ledgerBalance_eq_actual]

/-- C3 amended: across every sequence of the ledger operations, a
cached totalPoints of a present rickshaw equals sum(earned) - sum(spent) +
sum(adjusted) PLUS sum(expired) over the recorded amounts — the EXPIRED
rows record the negated expired sums, so their recorded amounts enter
positively, not negatively as the claim states. -/
theorem c3_ledger_invariant (dist : ℚ → ℚ → ℚ → ℚ → ℚ) (ops : List LedgerOp)
    (s : Store) (id : String) (hb : actualOK s id = true) :
    actualOK (applyLedgerOps dist s ops) id = true := by
  rw [actualOK_iff] at hb ⊢
  exact ledgerOps_preserve dist ops s id hb

/-- Witness for C3 amended: the invariant survives an expiry run
followed by a redemption on storeE. -/
theorem c3_ledger_invariant_witness :
    actualOK (applyLedgerOps dist0 storeE
      [LedgerOp.expire 1 2, LedgerOp.redeem r1name 3 4]) r1name = true := by
  have hb : actualOK storeE r1name = true := by decide
  exact c3_ledger_invariant dist0 [LedgerOp.expire 1 2, LedgerOp.redeem r1name 3 4]
    storeE r1name hb

/-- C3 counterexample: the formula of the claim (with the expired sum
subtracted) holds on storeE but fails right after one ExpireOlderThan
run, because the EXPIRED row records -10 and the claim formula would
then require a balance of 20 where the code (correctly) leaves 0. -/
theorem c3_claimed_formula_fails :
    claimedOK storeE r1name = true ∧
    claimedOK (applyLedgerOp dist0 storeE (LedgerOp.expire 1 2)) r1name = false := by
  constructor
  · decide
  · decide

/-- C7 (defect): the NOT EXISTS guard of ExpireOlderThan compares each
historyID of each EARNED row with itself, so it never excludes anything; a
second run with the same threshold re-selects the already-expired EARNED
row of storeE, debits another 10 points and drives the balance to -10,
where the claim requires the second run to contribute nothing. -/
theorem c7_double_expire :
    ((expirePoints storeE 1 2).1.rickshaws r1name).map (fun k => k.totalPoints) =
      some 0 ∧
    (expirePoints (expirePoints storeE 1 2).1 1 3).2 = 10 ∧
    ((expirePoints (expirePoints storeE 1 2).1 1 3).1.rickshaws r1name).map
      (fun k => k.totalPoints) = some (-10) := by
  refine ⟨?_, ?_, ?_⟩
  · decide
  · decide
  · decide

/-! Outcomes of the connection-level AcceptRide race model. -/

/-- Sanity check, a non-overlapping schedule: request 0 runs BEGIN,
SELECT, ride UPDATE, rickshaw UPDATE, COMMIT; only then request 1 runs
BEGIN, SELECT, ROLLBACK.  The model reproduces the intended outcome:
one success with the ride durably assigned to driver 0, one
AlreadyTaken, no crash. -/
theorem c1_race_sequential :
    (connRun connInit [0, 0, 0, 0, 0, 1, 1, 1]).ansA = some AcceptResult.success ∧
    (connRun connInit [0, 0, 0, 0, 0, 1, 1, 1]).ansB = some AcceptResult.alreadyTaken ∧
    (connRun connInit [0, 0, 0, 0, 0, 1, 1, 1]).crashed = false ∧
    (connRun connInit [0, 0, 0, 0, 0, 1, 1, 1]).committed =
      { pending := false, assigned := some 0 } := by
  refine ⟨?_, ?_, ?_, ?_⟩
  · decide
  · decide
  · decide
  · decide

/-- C1 (defect): in the reachable interleaving where request 0 has run
BEGIN, the SELECT check and the conditional ride UPDATE — at which point
its handler has already answered success=true — and request 1 then
issues its BEGIN before request 0 reaches COMMIT, the nested BEGIN on
the shared connection fails; the error has no callback and no listener,
the process dies, and the still-uncommitted transaction is discarded.
Request 0 was told success, request 1 never receives the promised
contention result, and the ride durably ends PENDING with NO assigned
rickshawID — refuting every part of the claimed one-winner guarantee. -/
theorem c1_race_crash :
    (connRun connInit [0, 0, 0, 1]).ansA = some AcceptResult.success ∧
    (connRun connInit [0, 0, 0, 1]).crashed = true ∧
    (connRun connInit [0, 0, 0, 1]).ansB = none ∧
    (connRun connInit [0, 0, 0, 1]).committed = { pending := true, assigned := none } := by
  refine ⟨?_, ?_, ?_, ?_⟩
  · decide
  · decide
  · decide
  · decide

end Aeras
